import Mathlib

/-!
Verification of the OpenF1 MCP server (`OpenF1MCPServer.py`) against its
natural-language specification.

The whole program is one Python module: a `fetch_data` helper performing
an HTTP GET against the OpenF1 REST service, a `list_tools` registry of
five tool definitions, and a `call_tool` dispatcher that, per tool,
builds query parameters from the call arguments, fetches the endpoint,
and renders the JSON records as a text report.

The embedding below is a direct transliteration of that module:
  * Python/JSON scalar and list values become `JVal`; the Python string
    conversions used by f-strings become `pyStr` and `pyRepr`.
  * A JSON object (one record, or the argument mapping of a call) is an
    association list `List (String × JVal)`; `dict.get(k)` becomes
    `pyGet` (returning `JVal.null` for a missing key, as `None`), and
    the Python `k in d` test becomes `(d.lookup k).isSome`.
  * The behaviour of the remote service in one call is an explicit
    input (`RemoteBehavior`): an HTTP response with a status code and a
    body (well-formed JSON array of records, or a JSON decode failure),
    or a transport-level failure.  `fetch_data` maps that behaviour to
    the outcome observed by the dispatcher: the parsed records, a
    raised `httpx.HTTPError` (status or transport errors), or a raised
    `json.JSONDecodeError` - which is NOT a subclass of
    `httpx.HTTPError`, a fact that matters for the
    `except httpx.HTTPError` clauses of the dispatcher.
  * `call_tool` returns `Except String (List TextContent)`: `.ok` is a
    normal return, `.error` models an exception escaping the function.
-/

namespace OpenF1

/-- A JSON/Python scalar or list value, as they occur in tool arguments
and in the records of the remote service.  A Python float is carried as
its `str()` rendering together with the fact whether it equals zero
(the only two observations the program makes of a float: rendering in
f-strings, and truthiness). -/
inductive JVal where
  | null
  | bool (b : Bool)
  | int (n : Int)
  | float (repr : String) (isZero : Bool)
  | str (s : String)
  | list (xs : List JVal)

mutual

/-- Python `repr` of a value, as used for the elements of a list when a
list is rendered inside an f-string. -/
def pyRepr : JVal → String
  | .null => "None"
  | .bool b => if b then "True" else "False"
  | .int n => toString n
  | .float r _ => r
  | .str s => "\x27" ++ s ++ "\x27"
  | .list xs => "[" ++ pyReprList xs ++ "]"

/-- Comma-separated `repr` of the elements of a Python list. -/
def pyReprList : List JVal → String
  | [] => ""
  | [x] => pyRepr x
  | x :: y :: xs => pyRepr x ++ ", " ++ pyReprList (y :: xs)

end

/-- Python `str` of a value, as interpolated by an f-string: identical
to `repr` except on strings, which are rendered without quotes. -/
def pyStr : JVal → String
  | .str s => s
  | v => pyRepr v

/-- Python `x is not None`, the identity test against `None` used to
gate the speed-trap, pit-out-flag, pit-duration, lap-number and
meeting-key output lines. -/
def isNotNone : JVal → Bool
  | .null => false
  | _ => true

/-- Python truthiness of a value (`if x:`). -/
def truthy : JVal → Bool
  | .null => false
  | .bool b => b
  | .int n => n != 0
  | .float _ isZero => !isZero
  | .str s => s != ""
  | .list xs => !xs.isEmpty

/-- One JSON record returned by the remote service, and likewise the
argument mapping of a tool call: a Python dict with string keys. -/
abbrev Record := List (String × JVal)

abbrev Args := Record
abbrev QueryParams := Record

/-- Python `d.get(k)`: the value under `k`, or `None` when absent. -/
def pyGet (d : Record) (k : String) : JVal :=
  (d.lookup k).getD .null

/-- One field-labeled output line, split into the fixed label prefix
and the value-dependent remainder; `render` restores the exact string
the Python code concatenates. -/
structure Line where
  label : String
  body : String
deriving DecidableEq

def Line.render (l : Line) : String := l.label ++ l.body

/-- The protocol content type: `TextContent(type="text", text=...)`. -/
structure TextContent where
  type : String
  text : String
deriving DecidableEq

/-- From the source: `BASE_URL = "https://api.openf1.org/v1"`. -/
def BASE_URL : String := "https://api.openf1.org/v1"

/-- The name and input-schema property names of one tool definition, as
declared in `list_tools` (descriptions and property types elided: the
dispatcher only ever consults the property names). -/
structure ToolDef where
  name : String
  properties : List String

/-- The five tool definitions returned by `list_tools`, with the
property names of each `inputSchema`. -/
def list_tools : List ToolDef :=
  [⟨"get_sessions",
    ["year", "country_name", "circuit_short_name", "session_name",
     "session_key", "date_start"]⟩,
   ⟨"get_drivers", ["session_key", "driver_number", "team_name"]⟩,
   ⟨"get_laps", ["session_key", "driver_number", "lap_number"]⟩,
   ⟨"get_pit_stops", ["session_key", "driver_number", "pit_duration"]⟩,
   ⟨"get_overtakes",
    ["session_key", "overtaking_driver_number",
     "overtaken_driver_number"]⟩]

/-- The input-schema property names of the named tool. -/
def schemaProps (toolName : String) : List String :=
  ((list_tools.find? (fun t => t.name == toolName)).map
    ToolDef.properties).getD []

/-- One step of query-parameter building, shared shape of every
`if "k" in arguments: params["k"] = arguments["k"]` statement. -/
def copyParam (arguments : Args) (k : String) : QueryParams :=
  match arguments.lookup k with
  | some v => [(k, v)]
  | none => []

/-- The pit-duration step: the single transforming case, assigning
the pit_duration parameter the f-string of "<=" followed by the
argument value. -/
def pitDurationParam (arguments : Args) : QueryParams :=
  match arguments.lookup "pit_duration" with
  | some v => [("pit_duration", .str ("<=" ++ pyStr v))]
  | none => []

/-- Query parameters of `get_sessions` (source lines 200-213). -/
def sessionsParams (arguments : Args) : QueryParams :=
  copyParam arguments "year" ++ copyParam arguments "country_name" ++
  copyParam arguments "circuit_short_name" ++
  copyParam arguments "session_name" ++
  copyParam arguments "session_key" ++ copyParam arguments "date_start"

/-- Query parameters of `get_drivers` (source lines 248-255). -/
def driversParams (arguments : Args) : QueryParams :=
  copyParam arguments "session_key" ++
  copyParam arguments "driver_number" ++ copyParam arguments "team_name"

/-- Query parameters of `get_laps` (source lines 291-298). -/
def lapsParams (arguments : Args) : QueryParams :=
  copyParam arguments "session_key" ++
  copyParam arguments "driver_number" ++ copyParam arguments "lap_number"

/-- Query parameters of `get_pit_stops` (source lines 367-375). -/
def pitStopsParams (arguments : Args) : QueryParams :=
  copyParam arguments "session_key" ++
  copyParam arguments "driver_number" ++ pitDurationParam arguments

/-- Query parameters of `get_overtakes` (source lines 424-431). -/
def overtakesParams (arguments : Args) : QueryParams :=
  copyParam arguments "session_key" ++
  copyParam arguments "overtaking_driver_number" ++
  copyParam arguments "overtaken_driver_number"

/-- The separator appended after each record: `"-" * 50`. -/
def dashes50 : String := String.mk (List.replicate 50 '-')

/-- One record block: the concatenated field lines, the 50-dash
separator and a blank line. -/
def recordBlock (lines : List Line) : String :=
  String.join (lines.map Line.render) ++ dashes50 ++ "\n\n"

/-- Field lines of one `get_sessions` record (source lines 227-235):
nine unconditional lines. -/
def sessionLines (session : Record) : List Line :=
  [⟨"Session Key: ", pyStr (pyGet session "session_key") ++ "\n"⟩,
   ⟨"Name: ", pyStr (pyGet session "session_name") ++ "\n"⟩,
   ⟨"Type: ", pyStr (pyGet session "session_type") ++ "\n"⟩,
   ⟨"Date: ", pyStr (pyGet session "date_start") ++ "\n"⟩,
   ⟨"Location: ", pyStr (pyGet session "location") ++ "\n"⟩,
   ⟨"Country: ", pyStr (pyGet session "country_name") ++ "\n"⟩,
   ⟨"Circuit: ", pyStr (pyGet session "circuit_short_name") ++ "\n"⟩,
   ⟨"Year: ", pyStr (pyGet session "year") ++ "\n"⟩,
   ⟨"Meeting Key: ", pyStr (pyGet session "meeting_key") ++ "\n"⟩]

/-- Field lines of one `get_drivers` record (source lines 271-278):
six unconditional lines, then a Session Key line gated by dict key
membership (`if "session_key" in driver:`). -/
def driverLines (driver : Record) : List Line :=
  [⟨"Driver Number: ", pyStr (pyGet driver "driver_number") ++ "\n"⟩,
   ⟨"Name: ", pyStr (pyGet driver "full_name") ++ "\n"⟩,
   ⟨"Abbreviation: ", pyStr (pyGet driver "name_acronym") ++ "\n"⟩,
   ⟨"Team: ", pyStr (pyGet driver "team_name") ++ "\n"⟩,
   ⟨"Country: ", pyStr (pyGet driver "country_code") ++ "\n"⟩,
   ⟨"Headshot: ", pyStr (pyGet driver "headshot_url") ++ "\n"⟩] ++
  (if (driver.lookup "session_key").isSome then
    [⟨"Session Key: ", pyStr (pyGet driver "session_key") ++ "\n"⟩]
  else [])

/-- Field lines of one `get_laps` record (source lines 322-353): three
unconditional lines; duration, sector, segment and start-time lines
gated by truthiness; speed-trap and pit-out lines gated by
`is not None`. -/
def lapLines (lap : Record) : List Line :=
  [⟨"Lap Number: ", pyStr (pyGet lap "lap_number") ++ "\n"⟩,
   ⟨"Driver Number: ", pyStr (pyGet lap "driver_number") ++ "\n"⟩,
   ⟨"Session Key: ", pyStr (pyGet lap "session_key") ++ "\n"⟩] ++
  (if truthy (pyGet lap "lap_duration") then
    [⟨"Lap Duration: ", pyStr (pyGet lap "lap_duration") ++ " seconds\n"⟩]
  else []) ++
  (if truthy (pyGet lap "duration_sector_1") then
    [⟨"Sector 1: ", pyStr (pyGet lap "duration_sector_1") ++ " seconds\n"⟩]
  else []) ++
  (if truthy (pyGet lap "duration_sector_2") then
    [⟨"Sector 2: ", pyStr (pyGet lap "duration_sector_2") ++ " seconds\n"⟩]
  else []) ++
  (if truthy (pyGet lap "duration_sector_3") then
    [⟨"Sector 3: ", pyStr (pyGet lap "duration_sector_3") ++ " seconds\n"⟩]
  else []) ++
  (if truthy (pyGet lap "segments_sector_1") then
    [⟨"Sector 1 Segments: ", pyStr (pyGet lap "segments_sector_1") ++ "\n"⟩]
  else []) ++
  (if truthy (pyGet lap "segments_sector_2") then
    [⟨"Sector 2 Segments: ", pyStr (pyGet lap "segments_sector_2") ++ "\n"⟩]
  else []) ++
  (if truthy (pyGet lap "segments_sector_3") then
    [⟨"Sector 3 Segments: ", pyStr (pyGet lap "segments_sector_3") ++ "\n"⟩]
  else []) ++
  (if isNotNone (pyGet lap "i1_speed") then
    [⟨"Speed Trap 1 (I1): ", pyStr (pyGet lap "i1_speed") ++ " km/h\n"⟩]
  else []) ++
  (if isNotNone (pyGet lap "i2_speed") then
    [⟨"Speed Trap 2 (I2): ", pyStr (pyGet lap "i2_speed") ++ " km/h\n"⟩]
  else []) ++
  (if isNotNone (pyGet lap "st_speed") then
    [⟨"Speed Trap (ST): ", pyStr (pyGet lap "st_speed") ++ " km/h\n"⟩]
  else []) ++
  (if isNotNone (pyGet lap "is_pit_out_lap") then
    [⟨"Pit Out Lap: ", pyStr (pyGet lap "is_pit_out_lap") ++ "\n"⟩]
  else []) ++
  (if truthy (pyGet lap "date_start") then
    [⟨"Start Time: ", pyStr (pyGet lap "date_start") ++ "\n"⟩]
  else [])

/-- Field lines of one `get_pit_stops` record (source lines 399-410):
three unconditional lines; pit duration and meeting key gated by
`is not None`, the timestamp gated by truthiness. -/
def pitLines (pit : Record) : List Line :=
  [⟨"Driver Number: ", pyStr (pyGet pit "driver_number") ++ "\n"⟩,
   ⟨"Session Key: ", pyStr (pyGet pit "session_key") ++ "\n"⟩,
   ⟨"Lap Number: ", pyStr (pyGet pit "lap_number") ++ "\n"⟩] ++
  (if isNotNone (pyGet pit "pit_duration") then
    [⟨"Pit Duration: ", pyStr (pyGet pit "pit_duration") ++ " seconds\n"⟩]
  else []) ++
  (if truthy (pyGet pit "date") then
    [⟨"Time: ", pyStr (pyGet pit "date") ++ "\n"⟩]
  else []) ++
  (if isNotNone (pyGet pit "meeting_key") then
    [⟨"Meeting Key: ", pyStr (pyGet pit "meeting_key") ++ "\n"⟩]
  else [])

/-- Field lines of one `get_overtakes` record (source lines 455-466). -/
def overtakeLines (overtake : Record) : List Line :=
  [⟨"Overtaking Driver: #",
    pyStr (pyGet overtake "overtaking_driver_number") ++ "\n"⟩,
   ⟨"Overtaken Driver: #",
    pyStr (pyGet overtake "overtaken_driver_number") ++ "\n"⟩,
   ⟨"Session Key: ", pyStr (pyGet overtake "session_key") ++ "\n"⟩] ++
  (if isNotNone (pyGet overtake "lap_number") then
    [⟨"Lap Number: ", pyStr (pyGet overtake "lap_number") ++ "\n"⟩]
  else []) ++
  (if truthy (pyGet overtake "date") then
    [⟨"Time: ", pyStr (pyGet overtake "date") ++ "\n"⟩]
  else []) ++
  (if isNotNone (pyGet overtake "meeting_key") then
    [⟨"Meeting Key: ", pyStr (pyGet overtake "meeting_key") ++ "\n"⟩]
  else [])

/-- The human filter fragments of `get_laps` (source lines 310-316). -/
def lapFilters (arguments : Args) : List String :=
  (match arguments.lookup "session_key" with
   | some v => ["session " ++ pyStr v]
   | none => []) ++
  (match arguments.lookup "driver_number" with
   | some v => ["driver #" ++ pyStr v]
   | none => []) ++
  (match arguments.lookup "lap_number" with
   | some v => ["lap " ++ pyStr v]
   | none => [])

/-- The human filter fragments of `get_pit_stops` (source lines
387-393). -/
def pitFilters (arguments : Args) : List String :=
  (match arguments.lookup "session_key" with
   | some v => ["session " ++ pyStr v]
   | none => []) ++
  (match arguments.lookup "driver_number" with
   | some v => ["driver #" ++ pyStr v]
   | none => []) ++
  (match arguments.lookup "pit_duration" with
   | some v => ["duration ≤ " ++ pyStr v ++ "s"]
   | none => [])

/-- The human filter fragments of `get_overtakes` (source lines
443-449). -/
def overtakeFilters (arguments : Args) : List String :=
  (match arguments.lookup "session_key" with
   | some v => ["session " ++ pyStr v]
   | none => []) ++
  (match arguments.lookup "overtaking_driver_number" with
   | some v => ["overtaking driver #" ++ pyStr v]
   | none => []) ++
  (match arguments.lookup "overtaken_driver_number" with
   | some v => ["overtaken driver #" ++ pyStr v]
   | none => [])

/-- The filter clause: empty when no fragment was collected, else
" for " followed by the comma-joined fragments. -/
def filterStr (filters : List String) : String :=
  if filters.isEmpty then "" else " for " ++ String.intercalate ", " filters

/-- The `get_drivers` header fragment (source line 267): the text
" for session " followed by the session_key argument when that key is
present, else empty. -/
def driverSessionInfo (arguments : Args) : String :=
  match arguments.lookup "session_key" with
  | some v => " for session " ++ pyStr v
  | none => ""

/-- The `get_sessions` success report (source lines 225-236); note the
header takes no filter clause from the arguments. -/
def renderSessions (sessions : List Record) : String :=
  "Found " ++ toString sessions.length ++ " session(s):\n\n" ++
  String.join (sessions.map (fun s => recordBlock (sessionLines s)))

/-- The `get_drivers` success report (source lines 267-279). -/
def renderDrivers (arguments : Args) (drivers : List Record) : String :=
  "Found " ++ toString drivers.length ++ " driver(s)" ++
  driverSessionInfo arguments ++ ":\n\n" ++
  String.join (drivers.map (fun d => recordBlock (driverLines d)))

/-- The `get_laps` success report (source lines 310-355). -/
def renderLaps (arguments : Args) (laps : List Record) : String :=
  "Found " ++ toString laps.length ++ " lap(s)" ++
  filterStr (lapFilters arguments) ++ ":\n\n" ++
  String.join (laps.map (fun l => recordBlock (lapLines l)))

/-- The `get_pit_stops` success report (source lines 387-412). -/
def renderPitStops (arguments : Args) (pitStops : List Record) : String :=
  "Found " ++ toString pitStops.length ++ " pit stop(s)" ++
  filterStr (pitFilters arguments) ++ ":\n\n" ++
  String.join (pitStops.map (fun p => recordBlock (pitLines p)))

/-- The `get_overtakes` success report (source lines 443-468). -/
def renderOvertakes (arguments : Args) (overtakes : List Record) : String :=
  "Found " ++ toString overtakes.length ++ " overtake(s)" ++
  filterStr (overtakeFilters arguments) ++ ":\n\n" ++
  String.join (overtakes.map (fun o => recordBlock (overtakeLines o)))

/-- What the remote service does for the single GET request of one
call: answer with a status code and a body (a well-formed JSON array
of records, or `.error msg` when the body is not well-formed JSON and
decoding it raises a `json.JSONDecodeError` rendering as `msg`), or
fail at the transport level (connect, DNS, timeout failures, whose
raised errors are `httpx.TransportError`, a subclass of
`httpx.HTTPError`, rendering as `msg`). -/
inductive RemoteBehavior where
  | response (status : Nat) (body : Except String (List Record))
  | networkFailure (msg : String)

/-- What `fetch_data` does with that behaviour, as observed by its
caller: return the parsed records, raise an `httpx.HTTPError` (from
`raise_for_status` or from the transport), or raise a
`json.JSONDecodeError` from `response.json()` (which is NOT an
`httpx.HTTPError`). -/
inductive FetchOutcome where
  | ok (records : List Record)
  | httpError (msg : String)
  | jsonError (msg : String)

/-- Modelled from httpx: the error-class word used in the message of
the `HTTPStatusError` raised by `Response.raise_for_status`. -/
def errorTypeWord (status : Nat) : String :=
  if status / 100 = 1 then "Informational response"
  else if status / 100 = 3 then "Redirect response"
  else if status / 100 = 4 then "Client error"
  else if status / 100 = 5 then "Server error"
  else "Invalid status code"

/-- Modelled from the Python standard library `http.HTTPStatus` reason
phrases used by httpx; only codes relevant here are spelled out, other
codes render with an empty phrase. -/
def reasonPhrase (status : Nat) : String :=
  if status = 200 then "OK"
  else if status = 400 then "Bad Request"
  else if status = 404 then "Not Found"
  else if status = 500 then "Internal Server Error"
  else if status = 503 then "Service Unavailable"
  else ""

/-- Modelled from httpx: the query-string part of the request URL as
rendered in `str(response.url)` (percent-encoding of reserved
characters elided; no claim inspects the query text). -/
def queryString (params : QueryParams) : String :=
  if params.isEmpty then ""
  else "?" ++ String.intercalate "&"
    (params.map (fun p => p.1 ++ "=" ++ pyStr p.2))

/-- The URL of the single GET request: the f-string joining BASE_URL
and the endpoint with a slash, plus the query string carried by the
response URL. -/
def requestUrl (endpoint : String) (params : QueryParams) : String :=
  BASE_URL ++ "/" ++ endpoint ++ queryString params

/-- Modelled from httpx: `str(e)` of the `HTTPStatusError` raised by
`Response.raise_for_status` on a non-2xx status (the extra
redirect-location sentence for 3xx responses with a Location header is
elided; response headers are not modelled). -/
def statusErrorMessage (status : Nat) (url : String) : String :=
  errorTypeWord status ++ " \x27" ++ toString status ++ " " ++
  reasonPhrase status ++ "\x27 for url \x27" ++ url ++
  "\x27\nFor more information check: " ++
  "https://developer.mozilla.org/en-US/docs/Web/HTTP/Status/" ++
  toString status

/-- The function `fetch_data` (source lines 30-45): a GET of
BASE_URL slash endpoint with the given query parameters, then
`response.raise_for_status()` (raises `httpx.HTTPStatusError` on a
non-2xx status), then `response.json()` (raises
`json.JSONDecodeError` on a malformed body). -/
def fetch_data (endpoint : String) (params : QueryParams)
    (remote : RemoteBehavior) : FetchOutcome :=
  match remote with
  | .networkFailure msg => .httpError msg
  | .response status body =>
    if 200 ≤ status ∧ status < 300 then
      match body with
      | .ok records => .ok records
      | .error msg => .jsonError msg
    else .httpError (statusErrorMessage status (requestUrl endpoint params))

/-- The names of the five registered tools, in dispatch order. -/
def toolNames : List String :=
  ["get_sessions", "get_drivers", "get_laps", "get_pit_stops",
   "get_overtakes"]

/-- The dispatcher `call_tool` (source lines 195-482).  The behaviour
of the remote service is an explicit input, a function of the endpoint
and query parameters actually requested.  `.ok` is a normal return of
the Python function; `.error msg` is an exception escaping it (only
the `json.JSONDecodeError` path, which the
`except httpx.HTTPError` clauses do not catch). -/
def call_tool (name : String) (arguments : Args)
    (remote : String → QueryParams → RemoteBehavior) :
    Except String (List TextContent) :=
  if name = "get_sessions" then
    let params := sessionsParams arguments
    match fetch_data "sessions" params (remote "sessions" params) with
    | .ok sessions =>
      if sessions.isEmpty then
        .ok [⟨"text", "No sessions found matching the criteria."⟩]
      else
        .ok [⟨"text", renderSessions sessions⟩]
    | .httpError e => .ok [⟨"text", "Error fetching sessions: " ++ e⟩]
    | .jsonError e => .error e
  else if name = "get_drivers" then
    let params := driversParams arguments
    match fetch_data "drivers" params (remote "drivers" params) with
    | .ok drivers =>
      if drivers.isEmpty then
        .ok [⟨"text", "No drivers found matching the criteria."⟩]
      else
        .ok [⟨"text", renderDrivers arguments drivers⟩]
    | .httpError e => .ok [⟨"text", "Error fetching drivers: " ++ e⟩]
    | .jsonError e => .error e
  else if name = "get_laps" then
    let params := lapsParams arguments
    match fetch_data "laps" params (remote "laps" params) with
    | .ok laps =>
      if laps.isEmpty then
        .ok [⟨"text", "No lap data found matching the criteria."⟩]
      else
        .ok [⟨"text", renderLaps arguments laps⟩]
    | .httpError e => .ok [⟨"text", "Error fetching lap data: " ++ e⟩]
    | .jsonError e => .error e
  else if name = "get_pit_stops" then
    let params := pitStopsParams arguments
    match fetch_data "pit" params (remote "pit" params) with
    | .ok pitStops =>
      if pitStops.isEmpty then
        .ok [⟨"text", "No pit stop data found matching the criteria."⟩]
      else
        .ok [⟨"text", renderPitStops arguments pitStops⟩]
    | .httpError e => .ok [⟨"text", "Error fetching pit stop data: " ++ e⟩]
    | .jsonError e => .error e
  else if name = "get_overtakes" then
    let params := overtakesParams arguments
    match fetch_data "overtakes" params (remote "overtakes" params) with
    | .ok overtakes =>
      if overtakes.isEmpty then
        .ok [⟨"text", "No overtake data found matching the criteria."⟩]
      else
        .ok [⟨"text", renderOvertakes arguments overtakes⟩]
    | .httpError e => .ok [⟨"text", "Error fetching overtake data: " ++ e⟩]
    | .jsonError e => .error e
  else
    .ok [⟨"text", "Unknown tool: " ++ name⟩]

/-! Helper notions used by the theorems below. -/

/-- The string `needle` occurs contiguously inside `haystack`. -/
def strContains (haystack needle : String) : Prop :=
  needle.data <:+: haystack.data

instance (h n : String) : Decidable (strContains h n) :=
  List.decidableInfix n.data h.data

/-- Whether a line with the given label occurs among the rendered
field lines. -/
def hasLabel (lines : List Line) (label : String) : Bool :=
  lines.any (fun l => l.label == label)

/-! Helper lemmas. -/

theorem str_data_append (a b : String) :
    (a ++ b).data = a.data ++ b.data := rfl

theorem str_append_assoc (a b c : String) :
    a ++ b ++ c = a ++ (b ++ c) := by
  cases a with | mk da =>
  cases b with | mk db =>
  cases c with | mk dc =>
  show String.mk (da ++ db ++ dc) = String.mk (da ++ (db ++ dc))
  rw [List.append_assoc]

theorem strContains_append_left {a n : String} (b : String)
    (h : strContains a n) : strContains (a ++ b) n := by
  obtain ⟨s, t, hst⟩ := h
  exact ⟨s, t ++ b.data, by rw [str_data_append, ← hst]; simp⟩

theorem strContains_append_right {b n : String} (a : String)
    (h : strContains b n) : strContains (a ++ b) n := by
  obtain ⟨s, t, hst⟩ := h
  exact ⟨a.data ++ s, t, by rw [str_data_append, ← hst]; simp⟩

theorem strContains_self (s : String) : strContains s s :=
  ⟨[], [], by simp⟩

theorem append_ne_empty_of_ne (a b : String) (ha : a.data ≠ []) :
    a ++ b ≠ "" := by
  intro h
  have hd := congrArg String.data h
  rw [str_data_append] at hd
  have hnil : String.data "" = [] := rfl
  rw [hnil] at hd
  exact ha (List.append_eq_nil.mp hd).1

theorem mem_copyParam {arguments : Args} {k0 k : String} {w : JVal} :
    (k, w) ∈ copyParam arguments k0 ↔
      k = k0 ∧ arguments.lookup k = some w := by
  unfold copyParam
  cases h : arguments.lookup k0 with
  | none =>
    simp only [List.not_mem_nil, false_iff]
    rintro ⟨rfl, hw⟩
    rw [h] at hw
    cases hw
  | some v =>
    constructor
    · intro hm
      have hkw := List.mem_singleton.mp hm
      injection hkw with h1 h2
      subst h1
      subst h2
      exact ⟨rfl, h⟩
    · rintro ⟨rfl, hw⟩
      rw [h] at hw
      cases hw
      exact List.mem_singleton.mpr rfl

theorem mem_pitDurationParam {arguments : Args} {k : String} {w : JVal} :
    (k, w) ∈ pitDurationParam arguments ↔
      k = "pit_duration" ∧ ∃ v, arguments.lookup "pit_duration" = some v ∧
        w = JVal.str ("<=" ++ pyStr v) := by
  unfold pitDurationParam
  cases h : arguments.lookup "pit_duration" with
  | none =>
    simp only [List.not_mem_nil, false_iff]
    rintro ⟨rfl, v, hv, rfl⟩
    cases hv
  | some v =>
    constructor
    · intro hm
      have hkw := List.mem_singleton.mp hm
      injection hkw with h1 h2
      exact ⟨h1, v, rfl, h2⟩
    · rintro ⟨rfl, v2, hv2, rfl⟩
      cases hv2
      exact List.mem_singleton.mpr rfl

theorem hasLabel_append (a b : List Line) (L : String) :
    hasLabel (a ++ b) L = (hasLabel a L || hasLabel b L) := by
  simp [hasLabel]

theorem hasLabel_ite (c : Bool) (l : Line) (L : String) :
    hasLabel (if c then [l] else []) L = (c && (l.label == L)) := by
  cases c <;> simp [hasLabel]

theorem hasLabel_cons (l : Line) (ls : List Line) (L : String) :
    hasLabel (l :: ls) L = ((l.label == L) || hasLabel ls L) := by
  simp [hasLabel]

theorem hasLabel_nil (L : String) : hasLabel [] L = false := rfl

theorem schemaProps_eval :
    schemaProps "get_sessions" =
      ["year", "country_name", "circuit_short_name", "session_name",
       "session_key", "date_start"] ∧
    schemaProps "get_drivers" = ["session_key", "driver_number", "team_name"] ∧
    schemaProps "get_laps" = ["session_key", "driver_number", "lap_number"] ∧
    schemaProps "get_pit_stops" =
      ["session_key", "driver_number", "pit_duration"] ∧
    schemaProps "get_overtakes" =
      ["session_key", "overtaking_driver_number",
       "overtaken_driver_number"] := by
  refine ⟨rfl, rfl, rfl, rfl, rfl⟩

theorem filterStr_empty_iff (fs : List String) :
    filterStr fs = "" ↔ fs = [] := by
  constructor
  · intro h
    by_contra hne
    rw [filterStr, if_neg (by simpa using hne)] at h
    exact absurd h (append_ne_empty_of_ne _ _ (by decide))
  · intro h
    rw [filterStr, h]
    rfl

theorem strContains_statusErrorMessage (status : Nat) (url needle : String)
    (h : strContains url needle) :
    strContains (statusErrorMessage status url) needle := by
  unfold statusErrorMessage
  exact strContains_append_left _ (strContains_append_left _
    (strContains_append_left _ (strContains_append_right _ h)))

theorem strContains_requestUrl (endpoint : String) (params : QueryParams)
    (h : strContains endpoint endpoint) :
    strContains (requestUrl endpoint params) endpoint := by
  unfold requestUrl
  exact strContains_append_left _ (strContains_append_right _ h)
/-! The claims. -/

/-- Claim C1: for every tool and every argument mapping, the built
query-parameter set contains exactly those keys of the argument
mapping that are recognized by the input schema of the tool, each
mapped to its argument value unchanged, except pit_duration, which is
mapped to the string "<=" followed by the rendering of the value;
unrecognized argument names are never forwarded (and, the builders
being total functions, never cause an error).  The final conjunct is
the spec scenario: get_pit_stops with session_key 9158 and
pit_duration 30.0 yields exactly session_key 9158 and pit_duration
"<=30.0". -/
theorem claim_C1_params (arguments : Args) (k : String) (w : JVal) :
    ((k, w) ∈ sessionsParams arguments ↔
      k ∈ schemaProps "get_sessions" ∧ arguments.lookup k = some w)
  ∧ ((k, w) ∈ driversParams arguments ↔
      k ∈ schemaProps "get_drivers" ∧ arguments.lookup k = some w)
  ∧ ((k, w) ∈ lapsParams arguments ↔
      k ∈ schemaProps "get_laps" ∧ arguments.lookup k = some w)
  ∧ ((k, w) ∈ pitStopsParams arguments ↔
      k ∈ schemaProps "get_pit_stops" ∧
        (((k = "session_key" ∨ k = "driver_number") ∧
            arguments.lookup k = some w) ∨
         (k = "pit_duration" ∧ ∃ v,
            arguments.lookup "pit_duration" = some v ∧
            w = JVal.str ("<=" ++ pyStr v))))
  ∧ ((k, w) ∈ overtakesParams arguments ↔
      k ∈ schemaProps "get_overtakes" ∧ arguments.lookup k = some w)
  ∧ pitStopsParams
      [("session_key", JVal.int 9158), ("pit_duration", JVal.float "30.0" false)] =
      [("session_key", JVal.int 9158), ("pit_duration", JVal.str "<=30.0")] := by
  obtain ⟨h1, h2, h3, h4, h5⟩ := schemaProps_eval
  refine ⟨?_, ?_, ?_, ?_, ?_, rfl⟩ <;>
    simp only [sessionsParams, driversParams, lapsParams, pitStopsParams,
      overtakesParams, List.mem_append, mem_copyParam, mem_pitDurationParam,
      h1, h2, h3, h4, h5, List.mem_cons, List.not_mem_nil, or_false] <;>
    tauto

/-- Claim C2, counterexample: when the remote service answers 200 with
a body that is not well-formed JSON, the json.JSONDecodeError raised
by response.json() is not an httpx.HTTPError, is not caught by the
dispatcher, and propagates out of call_tool as an exception (the
.error result), contradicting the claim that every fetch failure is
converted into a text result. -/
theorem claim_C2_counterexample :
    call_tool "get_sessions" []
      (fun _ _ => .response 200
        (.error "Expecting value: line 1 column 1 (char 0)")) =
      .error "Expecting value: line 1 column 1 (char 0)" := rfl

/-- Claim C2, amended: for every tool, a non-2xx HTTP status and a
network/connect/timeout failure are caught at the dispatcher layer and
converted into a text result naming the operation and the underlying
cause; only the malformed-JSON failure (see the counterexample)
escapes. -/
theorem claim_C2_amended (arguments : Args) (msg : String) (status : Nat)
    (body : Except String (List Record))
    (h : ¬(200 ≤ status ∧ status < 300)) :
    (call_tool "get_sessions" arguments (fun _ _ => .networkFailure msg) =
        .ok [⟨"text", "Error fetching sessions: " ++ msg⟩]
      ∧ call_tool "get_sessions" arguments
          (fun _ _ => .response status body) =
        .ok [⟨"text", "Error fetching sessions: " ++
          statusErrorMessage status
            (requestUrl "sessions" (sessionsParams arguments))⟩])
  ∧ (call_tool "get_drivers" arguments (fun _ _ => .networkFailure msg) =
        .ok [⟨"text", "Error fetching drivers: " ++ msg⟩]
      ∧ call_tool "get_drivers" arguments
          (fun _ _ => .response status body) =
        .ok [⟨"text", "Error fetching drivers: " ++
          statusErrorMessage status
            (requestUrl "drivers" (driversParams arguments))⟩])
  ∧ (call_tool "get_laps" arguments (fun _ _ => .networkFailure msg) =
        .ok [⟨"text", "Error fetching lap data: " ++ msg⟩]
      ∧ call_tool "get_laps" arguments
          (fun _ _ => .response status body) =
        .ok [⟨"text", "Error fetching lap data: " ++
          statusErrorMessage status
            (requestUrl "laps" (lapsParams arguments))⟩])
  ∧ (call_tool "get_pit_stops" arguments (fun _ _ => .networkFailure msg) =
        .ok [⟨"text", "Error fetching pit stop data: " ++ msg⟩]
      ∧ call_tool "get_pit_stops" arguments
          (fun _ _ => .response status body) =
        .ok [⟨"text", "Error fetching pit stop data: " ++
          statusErrorMessage status
            (requestUrl "pit" (pitStopsParams arguments))⟩])
  ∧ (call_tool "get_overtakes" arguments (fun _ _ => .networkFailure msg) =
        .ok [⟨"text", "Error fetching overtake data: " ++ msg⟩]
      ∧ call_tool "get_overtakes" arguments
          (fun _ _ => .response status body) =
        .ok [⟨"text", "Error fetching overtake data: " ++
          statusErrorMessage status
            (requestUrl "overtakes" (overtakesParams arguments))⟩]) := by
  refine ⟨⟨?_, ?_⟩, ⟨?_, ?_⟩, ⟨?_, ?_⟩, ⟨?_, ?_⟩, ⟨?_, ?_⟩⟩ <;>
    simp [call_tool, fetch_data, h]

/-- Claim C2, witness: a concrete network failure on get_sessions is
converted into the expected text result. -/
theorem claim_C2_witness :
    call_tool "get_sessions" []
      (fun _ _ => .networkFailure "Connection refused") =
      .ok [⟨"text", "Error fetching sessions: Connection refused"⟩] :=
  (claim_C2_amended [] "Connection refused" 500 (.ok []) (by decide)).1.1

/-- Claim C3, counterexample: the get_sessions rendering of an empty
record (every field null/missing) emits all nine field-labeled lines
showing None, so a field-labeled line can display a null/missing
value, contradicting the claim. -/
theorem claim_C3_counterexample :
    call_tool "get_sessions" [] (fun _ _ => .response 200 (.ok [[]])) =
      .ok [⟨"text",
        "Found 1 session(s):\n\nSession Key: None\nName: None\n" ++
        "Type: None\nDate: None\nLocation: None\nCountry: None\n" ++
        "Circuit: None\nYear: None\nMeeting Key: None\n" ++
        dashes50 ++ "\n\n"⟩]
    ∧ strContains
        ("Found 1 session(s):\n\nSession Key: None\nName: None\n" ++
         "Type: None\nDate: None\nLocation: None\nCountry: None\n" ++
         "Circuit: None\nYear: None\nMeeting Key: None\n" ++
         dashes50 ++ "\n\n") "Name: None\n" := by
  refine ⟨rfl, ?_⟩
  decide

/-- Claim C3, amended: only the conditionally-emitted field
descriptors are suppressed, each exactly when its own gate fails:
truthiness for the lap-duration, sector, segment, date and start-time
fields, a non-None presence check for the speed-trap, pit-out-flag,
pit-duration, lap-number and meeting-key fields, and dict-key presence
for the drivers session-key field; the remaining declared field
descriptors (all nine of get_sessions, and the leading identification
fields of every tool, stated here as the literal unconditional prefix
of each line list) are emitted unconditionally, rendering null or
missing values as None (pyGet yields null for a missing key and pyStr
renders null as the text None). -/
theorem claim_C3_amended (r : Record) :
    (sessionLines r).map Line.label =
      ["Session Key: ", "Name: ", "Type: ", "Date: ", "Location: ",
       "Country: ", "Circuit: ", "Year: ", "Meeting Key: "]
  ∧ pyStr JVal.null = "None"
  ∧ (driverLines r).take 6 =
      [⟨"Driver Number: ", pyStr (pyGet r "driver_number") ++ "\n"⟩,
       ⟨"Name: ", pyStr (pyGet r "full_name") ++ "\n"⟩,
       ⟨"Abbreviation: ", pyStr (pyGet r "name_acronym") ++ "\n"⟩,
       ⟨"Team: ", pyStr (pyGet r "team_name") ++ "\n"⟩,
       ⟨"Country: ", pyStr (pyGet r "country_code") ++ "\n"⟩,
       ⟨"Headshot: ", pyStr (pyGet r "headshot_url") ++ "\n"⟩]
  ∧ (lapLines r).take 3 =
      [⟨"Lap Number: ", pyStr (pyGet r "lap_number") ++ "\n"⟩,
       ⟨"Driver Number: ", pyStr (pyGet r "driver_number") ++ "\n"⟩,
       ⟨"Session Key: ", pyStr (pyGet r "session_key") ++ "\n"⟩]
  ∧ (pitLines r).take 3 =
      [⟨"Driver Number: ", pyStr (pyGet r "driver_number") ++ "\n"⟩,
       ⟨"Session Key: ", pyStr (pyGet r "session_key") ++ "\n"⟩,
       ⟨"Lap Number: ", pyStr (pyGet r "lap_number") ++ "\n"⟩]
  ∧ (overtakeLines r).take 3 =
      [⟨"Overtaking Driver: #",
        pyStr (pyGet r "overtaking_driver_number") ++ "\n"⟩,
       ⟨"Overtaken Driver: #",
        pyStr (pyGet r "overtaken_driver_number") ++ "\n"⟩,
       ⟨"Session Key: ", pyStr (pyGet r "session_key") ++ "\n"⟩]
  ∧ hasLabel (driverLines r) "Session Key: " =
      (r.lookup "session_key").isSome
  ∧ hasLabel (lapLines r) "Lap Duration: " = truthy (pyGet r "lap_duration")
  ∧ hasLabel (lapLines r) "Sector 1: " = truthy (pyGet r "duration_sector_1")
  ∧ hasLabel (lapLines r) "Sector 2: " = truthy (pyGet r "duration_sector_2")
  ∧ hasLabel (lapLines r) "Sector 3: " = truthy (pyGet r "duration_sector_3")
  ∧ hasLabel (lapLines r) "Sector 1 Segments: " =
      truthy (pyGet r "segments_sector_1")
  ∧ hasLabel (lapLines r) "Sector 2 Segments: " =
      truthy (pyGet r "segments_sector_2")
  ∧ hasLabel (lapLines r) "Sector 3 Segments: " =
      truthy (pyGet r "segments_sector_3")
  ∧ hasLabel (lapLines r) "Speed Trap 1 (I1): " =
      isNotNone (pyGet r "i1_speed")
  ∧ hasLabel (lapLines r) "Speed Trap 2 (I2): " =
      isNotNone (pyGet r "i2_speed")
  ∧ hasLabel (lapLines r) "Speed Trap (ST): " =
      isNotNone (pyGet r "st_speed")
  ∧ hasLabel (lapLines r) "Pit Out Lap: " =
      isNotNone (pyGet r "is_pit_out_lap")
  ∧ hasLabel (lapLines r) "Start Time: " = truthy (pyGet r "date_start")
  ∧ hasLabel (pitLines r) "Pit Duration: " = isNotNone (pyGet r "pit_duration")
  ∧ hasLabel (pitLines r) "Time: " = truthy (pyGet r "date")
  ∧ hasLabel (pitLines r) "Meeting Key: " = isNotNone (pyGet r "meeting_key")
  ∧ hasLabel (overtakeLines r) "Lap Number: " = isNotNone (pyGet r "lap_number")
  ∧ hasLabel (overtakeLines r) "Time: " = truthy (pyGet r "date")
  ∧ hasLabel (overtakeLines r) "Meeting Key: " =
      isNotNone (pyGet r "meeting_key") := by
  refine ⟨rfl, rfl, rfl, rfl, rfl, rfl, ?_, ?_, ?_, ?_, ?_, ?_, ?_, ?_,
    ?_, ?_, ?_, ?_, ?_, ?_, ?_, ?_, ?_, ?_, ?_⟩ <;>
    simp [driverLines, lapLines, pitLines, overtakeLines, hasLabel_append,
      hasLabel_ite, hasLabel_cons, hasLabel_nil]
set_option maxRecDepth 10000 in
/-- Claim C4, counterexample: get_sessions is called with the
filtering argument year 2023, one record is returned, yet the rendered
header carries no filter clause at all: the output is exactly the
unfiltered header plus the record block, it contains the supplied
value 2023 nowhere and contains no " for " fragment, contradicting the
claim that the filter clause lists every supplied filtering argument
for every tool. -/
theorem claim_C4_counterexample :
    call_tool "get_sessions" [("year", JVal.int 2023)]
      (fun _ _ => .response 200 (.ok [[("session_key", JVal.int 9158)]])) =
      .ok [⟨"text",
        "Found 1 session(s):\n\nSession Key: 9158\nName: None\n" ++
        "Type: None\nDate: None\nLocation: None\nCountry: None\n" ++
        "Circuit: None\nYear: None\nMeeting Key: None\n" ++
        dashes50 ++ "\n\n"⟩]
    ∧ ¬ strContains
        ("Found 1 session(s):\n\nSession Key: 9158\nName: None\n" ++
         "Type: None\nDate: None\nLocation: None\nCountry: None\n" ++
         "Circuit: None\nYear: None\nMeeting Key: None\n" ++
         dashes50 ++ "\n\n") "2023"
    ∧ ¬ strContains
        ("Found 1 session(s):\n\nSession Key: 9158\nName: None\n" ++
         "Type: None\nDate: None\nLocation: None\nCountry: None\n" ++
         "Circuit: None\nYear: None\nMeeting Key: None\n" ++
         dashes50 ++ "\n\n") " for " := by
  refine ⟨rfl, by decide, by decide⟩

/-- Claim C4, amended: the filter clause behaves as claimed for
get_laps, get_pit_stops and get_overtakes: one human-readable fragment
per supplied filtering argument, a fragment list empty exactly when no
filtering argument was supplied, a clause string empty exactly when
the fragment list is, and the clause appearing inside the rendered
report of each of the three tools; get_drivers contributes only a
session fragment (empty exactly when session_key was not supplied),
also appearing in its report; and get_sessions has no filter clause:
its output is independent of the supplied arguments. -/
theorem claim_C4_amended (arguments : Args) :
    (lapFilters arguments = [] ↔
      arguments.lookup "session_key" = none ∧
      arguments.lookup "driver_number" = none ∧
      arguments.lookup "lap_number" = none)
  ∧ (∀ v, arguments.lookup "session_key" = some v →
      ("session " ++ pyStr v) ∈ lapFilters arguments)
  ∧ (∀ v, arguments.lookup "driver_number" = some v →
      ("driver #" ++ pyStr v) ∈ lapFilters arguments)
  ∧ (∀ v, arguments.lookup "lap_number" = some v →
      ("lap " ++ pyStr v) ∈ lapFilters arguments)
  ∧ (pitFilters arguments = [] ↔
      arguments.lookup "session_key" = none ∧
      arguments.lookup "driver_number" = none ∧
      arguments.lookup "pit_duration" = none)
  ∧ (∀ v, arguments.lookup "session_key" = some v →
      ("session " ++ pyStr v) ∈ pitFilters arguments)
  ∧ (∀ v, arguments.lookup "driver_number" = some v →
      ("driver #" ++ pyStr v) ∈ pitFilters arguments)
  ∧ (∀ v, arguments.lookup "pit_duration" = some v →
      ("duration ≤ " ++ pyStr v ++ "s") ∈ pitFilters arguments)
  ∧ (overtakeFilters arguments = [] ↔
      arguments.lookup "session_key" = none ∧
      arguments.lookup "overtaking_driver_number" = none ∧
      arguments.lookup "overtaken_driver_number" = none)
  ∧ (∀ v, arguments.lookup "session_key" = some v →
      ("session " ++ pyStr v) ∈ overtakeFilters arguments)
  ∧ (∀ v, arguments.lookup "overtaking_driver_number" = some v →
      ("overtaking driver #" ++ pyStr v) ∈ overtakeFilters arguments)
  ∧ (∀ v, arguments.lookup "overtaken_driver_number" = some v →
      ("overtaken driver #" ++ pyStr v) ∈ overtakeFilters arguments)
  ∧ (filterStr (lapFilters arguments) = "" ↔ lapFilters arguments = [])
  ∧ (filterStr (pitFilters arguments) = "" ↔ pitFilters arguments = [])
  ∧ (filterStr (overtakeFilters arguments) = "" ↔
      overtakeFilters arguments = [])
  ∧ (∀ laps : List Record, strContains (renderLaps arguments laps)
      (filterStr (lapFilters arguments)))
  ∧ (∀ pitStops : List Record,
      strContains (renderPitStops arguments pitStops)
        (filterStr (pitFilters arguments)))
  ∧ (∀ overtakes : List Record,
      strContains (renderOvertakes arguments overtakes)
        (filterStr (overtakeFilters arguments)))
  ∧ (driverSessionInfo arguments = "" ↔
      arguments.lookup "session_key" = none)
  ∧ (∀ drivers : List Record, strContains (renderDrivers arguments drivers)
      (driverSessionInfo arguments))
  ∧ (∀ recs : List Record,
      call_tool "get_sessions" arguments
        (fun _ _ => .response 200 (.ok recs)) =
      call_tool "get_sessions" []
        (fun _ _ => .response 200 (.ok recs))) := by
  refine ⟨?_, ?_, ?_, ?_, ?_, ?_, ?_, ?_, ?_, ?_, ?_, ?_, ?_, ?_, ?_,
    ?_, ?_, ?_, ?_, ?_, ?_⟩
  · cases h1 : arguments.lookup "session_key" <;>
      cases h2 : arguments.lookup "driver_number" <;>
      cases h3 : arguments.lookup "lap_number" <;>
      simp [lapFilters, h1, h2, h3]
  · intro v h
    simp [lapFilters, h]
  · intro v h
    simp [lapFilters, h]
  · intro v h
    simp [lapFilters, h]
  · cases h1 : arguments.lookup "session_key" <;>
      cases h2 : arguments.lookup "driver_number" <;>
      cases h3 : arguments.lookup "pit_duration" <;>
      simp [pitFilters, h1, h2, h3]
  · intro v h
    simp [pitFilters, h]
  · intro v h
    simp [pitFilters, h]
  · intro v h
    simp [pitFilters, h]
  · cases h1 : arguments.lookup "session_key" <;>
      cases h2 : arguments.lookup "overtaking_driver_number" <;>
      cases h3 : arguments.lookup "overtaken_driver_number" <;>
      simp [overtakeFilters, h1, h2, h3]
  · intro v h
    simp [overtakeFilters, h]
  · intro v h
    simp [overtakeFilters, h]
  · intro v h
    simp [overtakeFilters, h]
  · exact filterStr_empty_iff _
  · exact filterStr_empty_iff _
  · exact filterStr_empty_iff _
  · intro laps
    unfold renderLaps
    exact strContains_append_left _ (strContains_append_left _
      (strContains_append_right _ ⟨[], [], by simp⟩))
  · intro pitStops
    unfold renderPitStops
    exact strContains_append_left _ (strContains_append_left _
      (strContains_append_right _ ⟨[], [], by simp⟩))
  · intro overtakes
    unfold renderOvertakes
    exact strContains_append_left _ (strContains_append_left _
      (strContains_append_right _ ⟨[], [], by simp⟩))
  · cases h : arguments.lookup "session_key" with
    | none => simp [driverSessionInfo, h]
    | some v =>
      simp only [driverSessionInfo, h]
      constructor
      · intro he
        exact absurd he (append_ne_empty_of_ne _ _ (by decide))
      · intro he
        exact absurd he (by simp)
  · intro drivers
    unfold renderDrivers
    exact strContains_append_left _ (strContains_append_left _
      (strContains_append_right _ ⟨[], [], by simp⟩))
  · intro recs
    simp [call_tool, fetch_data]

/-- Claim C4, witness: with driver_number 44 supplied, the laps filter
fragment list contains the driver fragment. -/
theorem claim_C4_witness :
    ("driver #" ++ pyStr (JVal.int 44)) ∈
      lapFilters [("driver_number", JVal.int 44)] :=
  (claim_C4_amended [("driver_number", JVal.int 44)]).2.2.1 (JVal.int 44) rfl

/-- Claim C5: in the get_laps rendering, a record carrying i1_speed
with value 0 still produces the Speed Trap 1 (I1) line showing 0, a
record carrying is_pit_out_lap with value False still produces the Pit
Out Lap line (presence, not truthiness, gates those fields), and a
record with no lap_duration key produces no Lap Duration line. -/
theorem claim_C5_laps (lap : Record) :
    (lap.lookup "i1_speed" = some (JVal.int 0) →
      (⟨"Speed Trap 1 (I1): ", "0 km/h\n"⟩ : Line) ∈ lapLines lap)
  ∧ (lap.lookup "is_pit_out_lap" = some (JVal.bool false) →
      (⟨"Pit Out Lap: ", "False\n"⟩ : Line) ∈ lapLines lap)
  ∧ (lap.lookup "lap_duration" = none →
      hasLabel (lapLines lap) "Lap Duration: " = false) := by
  refine ⟨?_, ?_, ?_⟩
  · intro h
    have hg : pyGet lap "i1_speed" = JVal.int 0 := by rw [pyGet, h]; rfl
    simp [lapLines, hg, pyStr, pyRepr, isNotNone]
    decide
  · intro h
    have hg : pyGet lap "is_pit_out_lap" = JVal.bool false := by
      rw [pyGet, h]; rfl
    simp [lapLines, hg, pyStr, pyRepr, isNotNone]
  · intro h
    have hg : pyGet lap "lap_duration" = JVal.null := by rw [pyGet, h]; rfl
    simp [lapLines, hg, hasLabel_append, hasLabel_ite, hasLabel_cons,
      hasLabel_nil, truthy]

/-- Claim C5, witness: a concrete record with i1_speed 0 and
is_pit_out_lap False and no lap_duration key. -/
theorem claim_C5_witness :
    ((⟨"Speed Trap 1 (I1): ", "0 km/h\n"⟩ : Line) ∈
      lapLines [("i1_speed", JVal.int 0), ("is_pit_out_lap", JVal.bool false)])
  ∧ ((⟨"Pit Out Lap: ", "False\n"⟩ : Line) ∈
      lapLines [("i1_speed", JVal.int 0), ("is_pit_out_lap", JVal.bool false)])
  ∧ hasLabel
      (lapLines [("i1_speed", JVal.int 0), ("is_pit_out_lap", JVal.bool false)])
      "Lap Duration: " = false :=
  ⟨(claim_C5_laps _).1 rfl, (claim_C5_laps _).2.1 rfl,
    (claim_C5_laps _).2.2 rfl⟩
/-- Claim C6: for every tool and every argument mapping, when the
remote service returns an empty record list the tool returns its fixed
no-results sentence, independent of the supplied arguments, with no
header, record blocks or trailing content. -/
theorem claim_C6_empty (arguments : Args) :
    call_tool "get_sessions" arguments (fun _ _ => .response 200 (.ok [])) =
      .ok [⟨"text", "No sessions found matching the criteria."⟩]
  ∧ call_tool "get_drivers" arguments (fun _ _ => .response 200 (.ok [])) =
      .ok [⟨"text", "No drivers found matching the criteria."⟩]
  ∧ call_tool "get_laps" arguments (fun _ _ => .response 200 (.ok [])) =
      .ok [⟨"text", "No lap data found matching the criteria."⟩]
  ∧ call_tool "get_pit_stops" arguments (fun _ _ => .response 200 (.ok [])) =
      .ok [⟨"text", "No pit stop data found matching the criteria."⟩]
  ∧ call_tool "get_overtakes" arguments (fun _ _ => .response 200 (.ok [])) =
      .ok [⟨"text", "No overtake data found matching the criteria."⟩] := by
  refine ⟨rfl, rfl, rfl, rfl, rfl⟩

/-- Claim C7: calling the dispatcher with a tool name that is not one
of the five registered tools returns a normal text result stating that
the tool name is unrecognized; the result is the same for every remote
behaviour, so no network request is performed, and no exception is
raised. -/
theorem claim_C7_unknown (name : String) (arguments : Args)
    (remote : String → QueryParams → RemoteBehavior)
    (h : name ∉ toolNames) :
    call_tool name arguments remote =
      .ok [⟨"text", "Unknown tool: " ++ name⟩] := by
  simp only [toolNames, List.mem_cons, List.not_mem_nil, or_false,
    not_or] at h
  obtain ⟨h1, h2, h3, h4, h5⟩ := h
  simp [call_tool, h1, h2, h3, h4, h5]

/-- Claim C7, witness: dispatching get_weather returns the
unrecognized-tool text, whatever the remote would have done. -/
theorem claim_C7_witness :
    call_tool "get_weather" [] (fun _ _ => .networkFailure "unreachable") =
      .ok [⟨"text", "Unknown tool: get_weather"⟩] :=
  claim_C7_unknown "get_weather" [] (fun _ _ => .networkFailure "unreachable")
    (by decide)

/-- Claim C8: for every tool, when the remote service answers HTTP
500, the dispatcher returns (does not raise) a text result that
contains the word Error and contains the endpoint name of the tool
(sessions, drivers, laps, pit, overtakes; for laps and overtakes the
endpoint name occurs inside the request URL quoted by the
httpx status-error message). -/
theorem claim_C8_serverError (arguments : Args)
    (body : Except String (List Record)) :
    (call_tool "get_sessions" arguments (fun _ _ => .response 500 body) =
       .ok [⟨"text", "Error fetching sessions: " ++ statusErrorMessage 500
         (requestUrl "sessions" (sessionsParams arguments))⟩]
     ∧ strContains ("Error fetching sessions: " ++ statusErrorMessage 500
         (requestUrl "sessions" (sessionsParams arguments))) "Error"
     ∧ strContains ("Error fetching sessions: " ++ statusErrorMessage 500
         (requestUrl "sessions" (sessionsParams arguments))) "sessions")
  ∧ (call_tool "get_drivers" arguments (fun _ _ => .response 500 body) =
       .ok [⟨"text", "Error fetching drivers: " ++ statusErrorMessage 500
         (requestUrl "drivers" (driversParams arguments))⟩]
     ∧ strContains ("Error fetching drivers: " ++ statusErrorMessage 500
         (requestUrl "drivers" (driversParams arguments))) "Error"
     ∧ strContains ("Error fetching drivers: " ++ statusErrorMessage 500
         (requestUrl "drivers" (driversParams arguments))) "drivers")
  ∧ (call_tool "get_laps" arguments (fun _ _ => .response 500 body) =
       .ok [⟨"text", "Error fetching lap data: " ++ statusErrorMessage 500
         (requestUrl "laps" (lapsParams arguments))⟩]
     ∧ strContains ("Error fetching lap data: " ++ statusErrorMessage 500
         (requestUrl "laps" (lapsParams arguments))) "Error"
     ∧ strContains ("Error fetching lap data: " ++ statusErrorMessage 500
         (requestUrl "laps" (lapsParams arguments))) "laps")
  ∧ (call_tool "get_pit_stops" arguments (fun _ _ => .response 500 body) =
       .ok [⟨"text", "Error fetching pit stop data: " ++ statusErrorMessage 500
         (requestUrl "pit" (pitStopsParams arguments))⟩]
     ∧ strContains ("Error fetching pit stop data: " ++ statusErrorMessage 500
         (requestUrl "pit" (pitStopsParams arguments))) "Error"
     ∧ strContains ("Error fetching pit stop data: " ++ statusErrorMessage 500
         (requestUrl "pit" (pitStopsParams arguments))) "pit")
  ∧ (call_tool "get_overtakes" arguments (fun _ _ => .response 500 body) =
       .ok [⟨"text", "Error fetching overtake data: " ++ statusErrorMessage 500
         (requestUrl "overtakes" (overtakesParams arguments))⟩]
     ∧ strContains ("Error fetching overtake data: " ++ statusErrorMessage 500
         (requestUrl "overtakes" (overtakesParams arguments))) "Error"
     ∧ strContains ("Error fetching overtake data: " ++ statusErrorMessage 500
         (requestUrl "overtakes" (overtakesParams arguments))) "overtakes") := by
  refine ⟨⟨rfl, ?_, ?_⟩, ⟨rfl, ?_, ?_⟩, ⟨rfl, ?_, ?_⟩, ⟨rfl, ?_, ?_⟩,
    ⟨rfl, ?_, ?_⟩⟩
  · exact strContains_append_left _
      (show strContains "Error fetching sessions: " "Error" by decide)
  · exact strContains_append_right _
      (strContains_statusErrorMessage 500
        (requestUrl "sessions" (sessionsParams arguments)) "sessions"
        (strContains_requestUrl "sessions" (sessionsParams arguments)
          (strContains_self "sessions")))
  · exact strContains_append_left _
      (show strContains "Error fetching drivers: " "Error" by decide)
  · exact strContains_append_right _
      (strContains_statusErrorMessage 500
        (requestUrl "drivers" (driversParams arguments)) "drivers"
        (strContains_requestUrl "drivers" (driversParams arguments)
          (strContains_self "drivers")))
  · exact strContains_append_left _
      (show strContains "Error fetching lap data: " "Error" by decide)
  · exact strContains_append_right _
      (strContains_statusErrorMessage 500
        (requestUrl "laps" (lapsParams arguments)) "laps"
        (strContains_requestUrl "laps" (lapsParams arguments)
          (strContains_self "laps")))
  · exact strContains_append_left _
      (show strContains "Error fetching pit stop data: " "Error" by decide)
  · exact strContains_append_right _
      (strContains_statusErrorMessage 500
        (requestUrl "pit" (pitStopsParams arguments)) "pit"
        (strContains_requestUrl "pit" (pitStopsParams arguments)
          (strContains_self "pit")))
  · exact strContains_append_left _
      (show strContains "Error fetching overtake data: " "Error" by decide)
  · exact strContains_append_right _
      (strContains_statusErrorMessage 500
        (requestUrl "overtakes" (overtakesParams arguments)) "overtakes"
        (strContains_requestUrl "overtakes" (overtakesParams arguments)
          (strContains_self "overtakes")))

/-- Claim C9: for every tool and every non-empty record list, the
rendered output begins with the word Found followed by the decimal
rendering of the record-list length. -/
theorem claim_C9_count (arguments : Args) (recs : List Record)
    (h : recs ≠ []) :
    (∃ rest, call_tool "get_sessions" arguments
        (fun _ _ => .response 200 (.ok recs)) =
      .ok [⟨"text", "Found " ++ toString recs.length ++ rest⟩])
  ∧ (∃ rest, call_tool "get_drivers" arguments
        (fun _ _ => .response 200 (.ok recs)) =
      .ok [⟨"text", "Found " ++ toString recs.length ++ rest⟩])
  ∧ (∃ rest, call_tool "get_laps" arguments
        (fun _ _ => .response 200 (.ok recs)) =
      .ok [⟨"text", "Found " ++ toString recs.length ++ rest⟩])
  ∧ (∃ rest, call_tool "get_pit_stops" arguments
        (fun _ _ => .response 200 (.ok recs)) =
      .ok [⟨"text", "Found " ++ toString recs.length ++ rest⟩])
  ∧ (∃ rest, call_tool "get_overtakes" arguments
        (fun _ _ => .response 200 (.ok recs)) =
      .ok [⟨"text", "Found " ++ toString recs.length ++ rest⟩]) := by
  have hne : recs.isEmpty = false := by
    cases recs with
    | nil => exact absurd rfl h
    | cons a l => rfl
  refine ⟨⟨" session(s):\n\n" ++
      String.join (recs.map (fun s => recordBlock (sessionLines s))), ?_⟩,
    ⟨" driver(s)" ++ driverSessionInfo arguments ++ ":\n\n" ++
      String.join (recs.map (fun d => recordBlock (driverLines d))), ?_⟩,
    ⟨" lap(s)" ++ filterStr (lapFilters arguments) ++ ":\n\n" ++
      String.join (recs.map (fun l => recordBlock (lapLines l))), ?_⟩,
    ⟨" pit stop(s)" ++ filterStr (pitFilters arguments) ++ ":\n\n" ++
      String.join (recs.map (fun p => recordBlock (pitLines p))), ?_⟩,
    ⟨" overtake(s)" ++ filterStr (overtakeFilters arguments) ++ ":\n\n" ++
      String.join (recs.map (fun o => recordBlock (overtakeLines o))), ?_⟩⟩ <;>
    simp [call_tool, fetch_data, hne, renderSessions, renderDrivers,
      renderLaps, renderPitStops, renderOvertakes, str_append_assoc]

/-- Claim C9, witness: three records give a header beginning Found 3. -/
theorem claim_C9_witness :
    ∃ rest, call_tool "get_sessions" []
        (fun _ _ => .response 200 (.ok [[], [], []])) =
      .ok [⟨"text", "Found 3" ++ rest⟩] := by
  obtain ⟨rest, hr⟩ :=
    (claim_C9_count [] [[], [], []] (List.cons_ne_nil _ _)).1
  exact ⟨rest, by rw [hr]; rfl⟩

/-- Claim C10: for every tool name, argument mapping and remote
behaviour, any value returned by call_tool (as opposed to a raised
exception) is a list containing exactly one text content element:
every return path yields a single-element list. -/
theorem claim_C10_single (name : String) (arguments : Args)
    (remote : String → QueryParams → RemoteBehavior) :
    (∃ t, call_tool name arguments remote = .ok [t]) ∨
    (∃ e, call_tool name arguments remote = .error e) := by
  unfold call_tool
  repeat' split
  all_goals try dsimp only
  all_goals repeat' split
  all_goals first
    | exact Or.inl ⟨_, rfl⟩
    | exact Or.inr ⟨_, rfl⟩

end OpenF1
